import Mathlib

/-! SPICE plugin of Remmina: session and channel lifecycle.

Shallow embedding of `remmina-plugins/spice/spice_plugin.c`.

The plugin is glue between three collaborators: the Remmina plugin service
(a table of function pointers), the spice client library (GObjects with
properties and signals) and GTK.  The embedding keeps

* the plugin data `RemminaPluginSpiceData` with every pointer as an
  `Option Handle` (`none` is `NULL`);
* the few object properties and signal connections the plugin writes or
  reads back, as association lists keyed by object handle;
* a log of the calls made to a collaborator that change or show something,
  in call order.

Values that come from the host application at the time of a call (the
connection file, the credential dialog, the server string parser) are fields
of `RemminaPluginService`; values that come from the spice client library and
are not determined by the plugin are fields of `SpiceClient`.
-/

namespace Spice

/-- Identity of a heap object (a non-NULL pointer). -/
abbrev Handle := Nat

/-- Default port, `#define XSPICE_DEFAULT_PORT 5900`. -/
def XSPICE_DEFAULT_PORT : Int := 5900

/-- Response id of the OK button of a GTK dialog. -/
def GTK_RESPONSE_OK : Int := -5

/-- Feature ids, the anonymous enum at the head of the file (first is 1). -/
def REMMINA_PLUGIN_SPICE_FEATURE_PREF_VIEWONLY : Int := 1
def REMMINA_PLUGIN_SPICE_FEATURE_PREF_RESIZEGUEST : Int := 2
def REMMINA_PLUGIN_SPICE_FEATURE_PREF_DISABLECLIPBOARD : Int := 3
def REMMINA_PLUGIN_SPICE_FEATURE_TOOL_SENDCTRLALTDEL : Int := 4
def REMMINA_PLUGIN_SPICE_FEATURE_TOOL_USBREDIR : Int := 5
def REMMINA_PLUGIN_SPICE_FEATURE_SCALE : Int := 6

/-- Concrete class of a `SpiceChannel` object, as probed by the
`SPICE_IS_*_CHANNEL` type checks. -/
inductive ChannelType where
  | main
  | display
  | playback
  | record
  | inputs
  | cursor
  | smartcard
  | usbredir
  | port
  | webdav
  deriving DecidableEq, Repr

/-- A channel object as handed to the channel-new callback. -/
structure SpiceChannel where
  ptr : Handle
  type : ChannelType
  channel_id : Int
  deriving DecidableEq, Repr

/-- Events of the channel-event signal (`SpiceChannelEvent`). -/
inductive SpiceChannelEvent where
  | NONE
  | OPENED
  | SWITCHING
  | CLOSED
  | ERROR_CONNECT
  | ERROR_TLS
  | ERROR_LINK
  | ERROR_AUTH
  | ERROR_IO
  deriving DecidableEq, Repr

/-- Plugin data, `struct _RemminaPluginSpiceData`. -/
structure RemminaPluginSpiceData where
  audio : Option Handle
  display : Option Handle
  display_channel : Option Handle
  gtk_session : Option Handle
  main_channel : Option Handle
  session : Option Handle
  deriving DecidableEq, Repr

/-- Zeroed plugin data, `g_new0(RemminaPluginSpiceData, 1)`. -/
def g_new0 : RemminaPluginSpiceData :=
  { audio := none, display := none, display_channel := none,
    gtk_session := none, main_channel := none, session := none }

/-- Properties of a `SpiceSession` that the plugin sets. Booleans are
`gboolean`, that is `gint`. -/
structure SpiceSession where
  host : Option String
  port : Option String
  password : Option String
  read_only : Int
  enable_audio : Int
  enable_smartcard : Int
  deriving DecidableEq, Repr

/-- Properties of a `SpiceDisplay` widget that the plugin sets. -/
structure SpiceDisplay where
  session : Option Handle
  channel_id : Int
  scaling : Int
  resize_guest : Int
  size_request : Int × Int
  deriving DecidableEq, Repr

/-- One call to a collaborator that changes something outside the plugin or
is visible to the user (plain reads are not logged). A pointer argument that
the code passes without a NULL check is an `Option Handle`. -/
inductive Effect where
  | spice_session_new (s : Handle)
  | spice_gtk_session_get (s : Option Handle) (g : Handle)
  | g_signal_connect (obj : Option Handle) (signal : String)
  | g_signal_handlers_disconnect_by_func (obj : Option Handle)
  | g_object_set (obj : Option Handle) (props : List String)
  | g_object_unref (obj : Option Handle)
  | spice_session_connect (s : Option Handle)
  | spice_session_disconnect (s : Option Handle)
  | protocol_plugin_emit_signal (name : String)
  | protocol_plugin_set_error (msg : String)
  | protocol_plugin_init_authpwd (allow_password_saving : Bool)
  | spice_display_new (s : Option Handle) (id : Int) (d : Handle)
  | gtk_container_add (widget : Option Handle)
  | gtk_widget_show (widget : Option Handle)
  | gtk_widget_set_size_request (widget : Option Handle) (width height : Int)
  | spice_audio_get (s : Option Handle)
  | spice_display_send_keys (d : Option Handle) (keys : List Nat)
  | usb_device_dialog (s : Option Handle)
  deriving DecidableEq, Repr

/-- The function table `remmina_plugin_service`, with the protocol widget
and its connection file already applied. -/
structure RemminaPluginService where
  file_get_string : String → Option String
  file_get_secret : String → Option String
  file_get_int : String → Int → Int
  get_server_port : Option String → Int → Option String × Int
  protocol_plugin_get_scale : Int
  protocol_plugin_init_authpwd : Bool → Int
  protocol_plugin_init_get_password : Option String

/-- What the spice client library answers independently of the plugin. -/
structure SpiceClient where
  spice_audio_get : Option Handle → Option Handle

/-- Everything outside the plugin's stack frame. -/
structure World where
  gpdata : RemminaPluginSpiceData
  sessions : List (Handle × SpiceSession)
  gtk_sessions : List (Handle × Int)
  displays : List (Handle × SpiceDisplay)
  geometry : List (Handle × (Int × Int))
  channel_new_handlers : List Handle
  channel_event_handlers : List Handle
  error : Option String
  next : Handle
  log : List Effect
  deriving DecidableEq, Repr

/-! ## Collaborators -/

/-- Append one call to the log. -/
def record (e : Effect) (w : World) : World :=
  { w with log := w.log ++ [e] }

/-- Update the entry of an object table, if the object is there. -/
def setObj {α : Type} (h : Handle) (f : α → α) : List (Handle × α) → List (Handle × α)
  | [] => []
  | (k, v) :: rest => if k = h then (k, f v) :: rest else (k, v) :: setObj h f rest

/-- Read the entry of an object table. -/
def getObj {α : Type} (h : Option Handle) (t : List (Handle × α)) : Option α :=
  match h with
  | none => none
  | some k => t.lookup k

/-- Expansion of a format with `%s` and `%i` conversions (`g_strdup_vprintf`),
the arguments already rendered as text. -/
def vprintf : List Char → List String → List Char
  | '%' :: 's' :: rest, a :: args => a.data ++ vprintf rest args
  | '%' :: 'i' :: rest, a :: args => a.data ++ vprintf rest args
  | c :: rest, args => c :: vprintf rest args
  | [], _ => []

/-- Formatting as `g_strdup_printf` does it. -/
def g_strdup_printf (fmt : String) (args : List String) : String :=
  String.mk (vprintf fmt.data args)

/-- Rendering of a `char *` argument of `%s`; glibc prints a NULL as
`(null)`. -/
def showStr : Option String → String
  | some s => s
  | none => "(null)"

/-- Message lookup `_()`, with no translation catalogue loaded. -/
def gettext (msgid : String) : String := msgid

/-- Allocation of a session, `spice_session_new ()`. -/
def spice_session_new (w : World) : Handle × World :=
  let s := w.next
  let obj : SpiceSession :=
    { host := none, port := none, password := none,
      read_only := 0, enable_audio := 0, enable_smartcard := 0 }
  (s, record (Effect.spice_session_new s)
        { w with next := w.next + 1, sessions := (s, obj) :: w.sessions })

/-- The GTK session of a spice session, `spice_gtk_session_get`. -/
def spice_gtk_session_get (s : Option Handle) (w : World) : Handle × World :=
  let g := w.next
  (g, record (Effect.spice_gtk_session_get s g)
        { w with next := w.next + 1, gtk_sessions := (g, 0) :: w.gtk_sessions })

/-- Connection of the channel-new callback to a session. -/
def g_signal_connect_channel_new (s : Option Handle) (w : World) : World :=
  let w := match s with
    | some h => { w with channel_new_handlers := w.channel_new_handlers ++ [h] }
    | none => w
  record (Effect.g_signal_connect s "channel-new") w

/-- Connection of the channel-event callback to a channel. -/
def g_signal_connect_channel_event (c : Handle) (w : World) : World :=
  record (Effect.g_signal_connect (some c) "channel-event")
    { w with channel_event_handlers := w.channel_event_handlers ++ [c] }

/-- Removal of every connection of the channel-event callback from one
object, `g_signal_handlers_disconnect_by_func`. -/
def g_signal_handlers_disconnect_by_func (c : Option Handle) (w : World) : World :=
  record (Effect.g_signal_handlers_disconnect_by_func c)
    { w with channel_event_handlers :=
        w.channel_event_handlers.filter (fun h => !(some h == c)) }

/-- Property write on a session object. -/
def g_object_set_session (s : Option Handle) (props : List String)
    (f : SpiceSession → SpiceSession) (w : World) : World :=
  let w := match s with
    | some h => { w with sessions := setObj h f w.sessions }
    | none => w
  record (Effect.g_object_set s props) w

/-- Property write on a GTK session object. -/
def g_object_set_gtk_session (g : Option Handle) (auto_clipboard : Int) (w : World) : World :=
  let w := match g with
    | some h => { w with gtk_sessions := setObj h (fun _ => auto_clipboard) w.gtk_sessions }
    | none => w
  record (Effect.g_object_set g ["auto-clipboard"]) w

/-- Property write on a display widget. -/
def g_object_set_display (d : Option Handle) (props : List String)
    (f : SpiceDisplay → SpiceDisplay) (w : World) : World :=
  let w := match d with
    | some h => { w with displays := setObj h f w.displays }
    | none => w
  record (Effect.g_object_set d props) w

/-- Size request of a widget, `gtk_widget_set_size_request`. -/
def gtk_widget_set_size_request (d : Option Handle) (width height : Int) (w : World) : World :=
  let w := match d with
    | some h =>
      { w with displays := setObj h (fun o => { o with size_request := (width, height) }) w.displays }
    | none => w
  record (Effect.gtk_widget_set_size_request d width height) w

/-- Read of the width and height of a display channel; nothing is written
to the out-parameters when the object is not a live channel. -/
def g_object_get_width_height (c : Option Handle) (w : World) : Option (Int × Int) :=
  getObj c w.geometry

/-- Allocation of a display widget, `spice_display_new (session, id)`. -/
def spice_display_new (s : Option Handle) (id : Int) (w : World) : Handle × World :=
  let d := w.next
  let obj : SpiceDisplay :=
    { session := s, channel_id := id, scaling := 1, resize_guest := 0, size_request := (-1, -1) }
  (d, record (Effect.spice_display_new s id d)
        { w with next := w.next + 1, displays := (d, obj) :: w.displays })

/-- Lifecycle signal, `protocol_plugin_emit_signal (gp, name)`. -/
def protocol_plugin_emit_signal (name : String) (w : World) : World :=
  record (Effect.protocol_plugin_emit_signal name) w

/-- Error report, `protocol_plugin_set_error (gp, fmt, ...)`. -/
def protocol_plugin_set_error (fmt : String) (args : List String) (w : World) : World :=
  let msg := g_strdup_printf fmt args
  record (Effect.protocol_plugin_set_error msg) { w with error := some msg }

/-! ## The plugin -/

/-- Plugin initialisation, `remmina_plugin_spice_init`. -/
def remmina_plugin_spice_init (svc : RemminaPluginService) (w : World) : World :=
  let gpdata := g_new0
  let w := { w with gpdata := gpdata }
  let (s, w) := spice_session_new w
  let gpdata := { gpdata with session := some s }
  let w := { w with gpdata := gpdata }
  let w := g_signal_connect_channel_new gpdata.session w
  let (host, port) := svc.get_server_port (svc.file_get_string "server") XSPICE_DEFAULT_PORT
  let w := g_object_set_session gpdata.session
    ["host", "port", "password", "read-only", "enable-audio", "enable-smartcard"]
    (fun _ =>
      { host := host,
        port := some (g_strdup_printf "%i" [toString port]),
        password := svc.file_get_secret "password",
        read_only := svc.file_get_int "viewonly" 0,
        enable_audio := svc.file_get_int "enableaudio" 0,
        enable_smartcard := svc.file_get_int "sharesmartcard" 0 }) w
  let (g, w) := spice_gtk_session_get gpdata.session w
  let gpdata := { gpdata with gtk_session := some g }
  let w := { w with gpdata := gpdata }
  g_object_set_gtk_session gpdata.gtk_session
    (if svc.file_get_int "disableclipboard" 0 = 0 then 1 else 0) w

/-- Start of the handshake, `remmina_plugin_spice_open_connection`. -/
def remmina_plugin_spice_open_connection (w : World) : Bool × World :=
  let gpdata := w.gpdata
  let w := record (Effect.spice_session_connect gpdata.session) w
  (true, w)

/-- Teardown, `remmina_plugin_spice_close_connection`. -/
def remmina_plugin_spice_close_connection (w : World) : Bool × World :=
  let gpdata := w.gpdata
  let w := match gpdata.main_channel with
    | some mc => g_signal_handlers_disconnect_by_func (some mc) w
    | none => w
  let w := match gpdata.session with
    | some s =>
      let w := record (Effect.spice_session_disconnect (some s)) w
      let w := record (Effect.g_object_unref (some s)) w
      let w := { w with gpdata := { w.gpdata with session := none } }
      protocol_plugin_emit_signal "disconnect" w
    | none => w
  (false, w)

/-- Type check `SPICE_IS_MAIN_CHANNEL`. -/
def SPICE_IS_MAIN_CHANNEL (channel : SpiceChannel) : Bool :=
  channel.type == ChannelType.main

/-- Type check `SPICE_IS_DISPLAY_CHANNEL`. -/
def SPICE_IS_DISPLAY_CHANNEL (channel : SpiceChannel) : Bool :=
  channel.type == ChannelType.display

/-- Type check `SPICE_IS_PLAYBACK_CHANNEL`. -/
def SPICE_IS_PLAYBACK_CHANNEL (channel : SpiceChannel) : Bool :=
  channel.type == ChannelType.playback

/-- Callback of the session's channel-new signal,
`remmina_plugin_spice_channel_new_cb`. The `session` argument of the C
function is never used (the body reads `gpdata->session`) and is left out. -/
def remmina_plugin_spice_channel_new_cb (svc : RemminaPluginService) (lib : SpiceClient)
    (channel : SpiceChannel) (w : World) : World :=
  let id := channel.channel_id
  let w :=
    if SPICE_IS_MAIN_CHANNEL channel then
      let w := { w with gpdata := { w.gpdata with main_channel := some channel.ptr } }
      g_signal_connect_channel_event channel.ptr w
    else w
  let w :=
    if SPICE_IS_DISPLAY_CHANNEL channel then
      let w := { w with gpdata := { w.gpdata with display_channel := some channel.ptr } }
      let (d, w) := spice_display_new w.gpdata.session id w
      let w := { w with gpdata := { w.gpdata with display := some d } }
      let w := g_object_set_display w.gpdata.display ["scaling", "resize-guest"]
        (fun o => { o with scaling := svc.protocol_plugin_get_scale,
                           resize_guest := svc.file_get_int "resizeguest" 0 }) w
      let w := record (Effect.gtk_container_add w.gpdata.display) w
      record (Effect.gtk_widget_show w.gpdata.display) w
    else w
  if SPICE_IS_PLAYBACK_CHANNEL channel then
    if svc.file_get_int "enableaudio" 0 ≠ 0 then
      let w := record (Effect.spice_audio_get w.gpdata.session) w
      { w with gpdata := { w.gpdata with audio := lib.spice_audio_get w.gpdata.session } }
    else w
  else w

/-- Credential prompt, `remmina_plugin_spice_ask_auth`. -/
def remmina_plugin_spice_ask_auth (svc : RemminaPluginService) (w : World) : Bool × World :=
  let gpdata := w.gpdata
  let disablepasswordstoring := svc.file_get_int "disablepasswordstoring" 0
  let allow := decide (disablepasswordstoring = 0)
  let ret := svc.protocol_plugin_init_authpwd allow
  let w := record (Effect.protocol_plugin_init_authpwd allow) w
  if ret = GTK_RESPONSE_OK then
    let w := g_object_set_session gpdata.session ["password"]
      (fun o => { o with password := svc.protocol_plugin_init_get_password }) w
    (true, w)
  else
    (false, w)

/-- Handler of the main channel's channel-event signal,
`remmina_plugin_spice_main_channel_event_cb`. The `channel` argument of the C
function is never used and is left out. -/
def remmina_plugin_spice_main_channel_event_cb (svc : RemminaPluginService)
    (event : SpiceChannelEvent) (w : World) : World :=
  match event with
  | SpiceChannelEvent.CLOSED =>
    let (server, _) := svc.get_server_port (svc.file_get_string "server") XSPICE_DEFAULT_PORT
    let w := protocol_plugin_set_error (gettext "Disconnected from SPICE server %s.")
      [showStr server] w
    (remmina_plugin_spice_close_connection w).2
  | SpiceChannelEvent.OPENED =>
    protocol_plugin_emit_signal "connect" w
  | SpiceChannelEvent.ERROR_AUTH =>
    let (ok, w) := remmina_plugin_spice_ask_auth svc w
    if ok then
      (remmina_plugin_spice_open_connection w).2
    else
      let w := protocol_plugin_set_error (gettext "Invalid password.") [] w
      (remmina_plugin_spice_close_connection w).2
  | SpiceChannelEvent.ERROR_TLS
  | SpiceChannelEvent.ERROR_LINK
  | SpiceChannelEvent.ERROR_CONNECT =>
    let w := protocol_plugin_set_error (gettext "Connection to SPICE server failed.") [] w
    (remmina_plugin_spice_close_connection w).2
  | _ => w

/-- Keystroke injection, `remmina_plugin_spice_keystroke`. -/
def remmina_plugin_spice_keystroke (keystrokes : List Nat) (w : World) : World :=
  let gpdata := w.gpdata
  match gpdata.display with
  | some d => record (Effect.spice_display_send_keys (some d) keystrokes) w
  | none => w

/-- Key symbols `GDK_KEY_Control_L`, `GDK_KEY_Alt_L`, `GDK_KEY_Delete`. -/
def GDK_KEY_Control_L : Nat := 0xffe3
def GDK_KEY_Alt_L : Nat := 0xffe9
def GDK_KEY_Delete : Nat := 0xffff

/-- Control-alt-delete chord, `remmina_plugin_spice_send_ctrlaltdel`. -/
def remmina_plugin_spice_send_ctrlaltdel (w : World) : World :=
  let keys := [GDK_KEY_Control_L, GDK_KEY_Alt_L, GDK_KEY_Delete]
  remmina_plugin_spice_keystroke keys w

/-- Scaling update, `remmina_plugin_spice_update_scale`. The locals `width`
and `height` are declared without a value: when the read of the channel
geometry writes nothing to them the result is `none`. -/
def remmina_plugin_spice_update_scale (svc : RemminaPluginService) (w : World) : Option World :=
  let gpdata := w.gpdata
  let scale := svc.file_get_int "scale" 0
  let w := g_object_set_display gpdata.display ["scaling"] (fun o => { o with scaling := scale }) w
  if scale ≠ 0 then
    some (gtk_widget_set_size_request gpdata.display (-1) (-1) w)
  else
    match g_object_get_width_height gpdata.display_channel w with
    | some (width, height) => some (gtk_widget_set_size_request gpdata.display width height w)
    | none => none

/-- Device selection dialog, `remmina_plugin_spice_select_usb_devices`. -/
def remmina_plugin_spice_select_usb_devices (w : World) : World :=
  let gpdata := w.gpdata
  record (Effect.usb_device_dialog gpdata.session) w

/-- Capability query, `remmina_plugin_spice_query_feature`. -/
def remmina_plugin_spice_query_feature (_id : Int) (_w : World) : Bool := true

/-- Capability dispatch, `remmina_plugin_spice_call_feature`. -/
def remmina_plugin_spice_call_feature (svc : RemminaPluginService) (id : Int) (w : World) :
    Option World :=
  let gpdata := w.gpdata
  if id = REMMINA_PLUGIN_SPICE_FEATURE_PREF_VIEWONLY then
    some (g_object_set_session gpdata.session ["read-only"]
      (fun o => { o with read_only := svc.file_get_int "viewonly" 0 }) w)
  else if id = REMMINA_PLUGIN_SPICE_FEATURE_PREF_RESIZEGUEST then
    some (g_object_set_display gpdata.display ["resize-guest"]
      (fun o => { o with resize_guest := svc.file_get_int "resizeguest" 1 }) w)
  else if id = REMMINA_PLUGIN_SPICE_FEATURE_PREF_DISABLECLIPBOARD then
    some (g_object_set_gtk_session gpdata.gtk_session
      (if svc.file_get_int "disableclipboard" 0 = 0 then 1 else 0) w)
  else if id = REMMINA_PLUGIN_SPICE_FEATURE_SCALE then
    remmina_plugin_spice_update_scale svc w
  else if id = REMMINA_PLUGIN_SPICE_FEATURE_TOOL_SENDCTRLALTDEL then
    some (remmina_plugin_spice_send_ctrlaltdel w)
  else if id = REMMINA_PLUGIN_SPICE_FEATURE_TOOL_USBREDIR then
    some (remmina_plugin_spice_select_usb_devices w)
  else
    some w

/-! ## Reading the log -/

/-- Number of times a lifecycle signal occurs in a log. -/
def signalCount (name : String) (l : List Effect) : Nat :=
  l.count (Effect.protocol_plugin_emit_signal name)

/-- A world before `remmina_plugin_spice_init`: nothing allocated, nothing
logged. -/
def World.empty : World :=
  { gpdata := g_new0, sessions := [], gtk_sessions := [], displays := [], geometry := [],
    channel_new_handlers := [], channel_event_handlers := [], error := none,
    next := 1, log := [] }

/-- Value of a run of decimal digits, if it is one. -/
def parseDigits : List Char → Nat → Option Nat
  | [], acc => some acc
  | c :: cs, acc => if c.isDigit then parseDigits cs (acc * 10 + (c.toNat - 48)) else none

/-- Text before the first colon, and the text after it when there is one. -/
def splitHostPort : List Char → List Char × Option (List Char)
  | [] => ([], none)
  | c :: rest =>
    if c = ':' then ([], some rest)
    else ((c :: (splitHostPort rest).1), (splitHostPort rest).2)

/-- Modelled from the spec: the server string parser behind the service
entry `get_server_port`, which this file calls but does not contain. The spec
gives the server string as `host` or `host:port`; the host is the text before
the colon and the port the number after it, the default port when none is
given. -/
def get_server_port (server : Option String) (defaultport : Int) : Option String × Int :=
  match server with
  | none => (none, defaultport)
  | some s =>
    match splitHostPort s.data with
    | (h, none) => (some (String.mk h), defaultport)
    | (h, some p) =>
      match parseDigits p 0 with
      | some n => (some (String.mk h), (n : Int))
      | none => (some (String.mk h), defaultport)

/-- A sample host application: server `10.0.0.5:5901`, stored password
`wrong`, audio on, the `scale` setting as given; the credential dialog
answers with the given response and password. -/
def sampleService (response : Int) (pw : Option String) (scale : Int) : RemminaPluginService :=
  { file_get_string := fun k => if k = "server" then some "10.0.0.5:5901" else none,
    file_get_secret := fun k => if k = "password" then some "wrong" else none,
    file_get_int := fun k d =>
      if k = "enableaudio" then 1 else if k = "scale" then scale else d,
    get_server_port := get_server_port,
    protocol_plugin_get_scale := scale,
    protocol_plugin_init_authpwd := fun _ => response,
    protocol_plugin_init_get_password := pw }

/-- A sample spice client library: one audio endpoint, object 50. -/
def sampleClient : SpiceClient :=
  { spice_audio_get := fun s => match s with
      | some _ => some 50
      | none => none }

/-- Sample channels: two main channels, two display channels, one playback
channel and one inputs channel. -/
def mainChannel : SpiceChannel := { ptr := 100, type := ChannelType.main, channel_id := 0 }
def mainChannel2 : SpiceChannel := { ptr := 110, type := ChannelType.main, channel_id := 1 }
def displayChannel : SpiceChannel := { ptr := 101, type := ChannelType.display, channel_id := 0 }
def displayChannel2 : SpiceChannel := { ptr := 111, type := ChannelType.display, channel_id := 1 }
def playbackChannel : SpiceChannel := { ptr := 102, type := ChannelType.playback, channel_id := 0 }
def inputsChannel : SpiceChannel := { ptr := 103, type := ChannelType.inputs, channel_id := 0 }

/-- Delivery of a sequence of channel-new events, oldest first. -/
def deliverChannels (svc : RemminaPluginService) (lib : SpiceClient)
    (chs : List SpiceChannel) (w : World) : World :=
  chs.foldl (fun acc ch => remmina_plugin_spice_channel_new_cb svc lib ch acc) w

/-- Sample world in the Connecting phase: initialised, handshake started,
main, display and playback channels created (display channel 1024 by 768),
no connect signal yet. -/
def connectingWorld : World :=
  let svc := sampleService 0 none 0
  let w := remmina_plugin_spice_init svc World.empty
  let w := (remmina_plugin_spice_open_connection w).2
  let w := deliverChannels svc sampleClient [mainChannel, displayChannel, playbackChannel] w
  { w with geometry := [(displayChannel.ptr, (1024, 768))] }

/-- Sample world in the Connected phase: the main channel has reported
`OPENED` once and the connect signal was emitted for it. -/
def connectedWorld : World :=
  remmina_plugin_spice_main_channel_event_cb (sampleService 0 none 0)
    SpiceChannelEvent.OPENED connectingWorld

/-- Connecting phase, read off the log: a handshake was started and no
connect signal was emitted. -/
def isConnecting (w : World) : Bool :=
  w.log.any (fun e => e == Effect.spice_session_connect w.gpdata.session) &&
    signalCount "connect" w.log == 0

/-- Connected phase, read off the log: a connect signal was emitted and the
session is still held. -/
def isConnected (w : World) : Bool :=
  w.gpdata.session.isSome && decide (0 < signalCount "connect" w.log)

/-- Calls that emit a lifecycle signal or release the session. -/
def isSignalOrRelease : Effect → Bool
  | Effect.protocol_plugin_emit_signal _ => true
  | Effect.g_object_unref _ => true
  | Effect.spice_session_disconnect _ => true
  | _ => false

/-- The handler disconnection that teardown issues when the plugin data
names a control channel. -/
def handlerDisconnectCalls (w : World) : List Effect :=
  match w.gpdata.main_channel with
  | some mc => [Effect.g_signal_handlers_disconnect_by_func (some mc)]
  | none => []

/-- The calls of teardown on a state holding session `s`. -/
def teardownCalls (w : World) (s : Handle) : List Effect :=
  handlerDisconnectCalls w ++
    [Effect.spice_session_disconnect (some s),
     Effect.g_object_unref (some s),
     Effect.protocol_plugin_emit_signal "disconnect"]

/-- Calls that start a handshake. -/
def isConnectAttempt : Effect → Bool
  | Effect.spice_session_connect _ => true
  | _ => false

/-- Calls that open the credential dialog. -/
def isPrompt : Effect → Bool
  | Effect.protocol_plugin_init_authpwd _ => true
  | _ => false

/-- Calls that report an error. -/
def isSetError : Effect → Bool
  | Effect.protocol_plugin_set_error _ => true
  | _ => false

/-- Calls that ask the protocol widget to take a child widget. -/
def isContainerAdd : Effect → Bool
  | Effect.gtk_container_add _ => true
  | _ => false

/-- Most recent channel of a given type in a sequence of channel-new events,
`start` when the sequence has none. -/
def lastOfType (t : ChannelType) (chs : List SpiceChannel) (start : Option Handle) :
    Option Handle :=
  chs.foldl (fun acc ch => if ch.type = t then some ch.ptr else acc) start

/-- The channels of a given type in a sequence of channel-new events. -/
def ofType (t : ChannelType) (chs : List SpiceChannel) : List Handle :=
  (chs.filter (fun ch => decide (ch.type = t))).map (fun ch => ch.ptr)

/-- The distinct channels that carry a connection of the channel-event
handler. -/
def registeredChannels (w : World) : List Handle :=
  w.channel_event_handlers.dedup

/-- Sample world right after `remmina_plugin_spice_init`: the session exists,
no channel-new event was delivered, so the plugin data names no display
surface and no display channel. -/
def initWorld : World :=
  remmina_plugin_spice_init (sampleService 0 none 0) World.empty

/-- The display channels of a sequence of channel-new events, in order. -/
def displayEvents (chs : List SpiceChannel) : List SpiceChannel :=
  chs.filter (fun ch => decide (ch.type = ChannelType.display))

/-- The `spice_display_new` calls of a log, in order: session argument,
channel id argument and the surface returned. -/
def surfacesCreated (l : List Effect) : List (Option Handle × Int × Handle) :=
  l.filterMap (fun e =>
    match e with
    | Effect.spice_display_new s id d => some (s, id, d)
    | _ => none)

/-- The widgets passed to `gtk_container_add` in a log, in order. -/
def surfacesAdded (l : List Effect) : List (Option Handle) :=
  l.filterMap (fun e =>
    match e with
    | Effect.gtk_container_add d => some d
    | _ => none)

/-- The surface object that the display branch of the channel-new callback
leaves behind for a display channel: bound to the session and the channel id,
scaling and resize-guest as configured, no size request yet. -/
def surfaceFor (svc : RemminaPluginService) (session : Option Handle)
    (p : Handle × SpiceChannel) : Handle × SpiceDisplay :=
  (p.1, { session := session, channel_id := p.2.channel_id,
          scaling := svc.protocol_plugin_get_scale,
          resize_guest := svc.file_get_int "resizeguest" 0,
          size_request := (-1, -1) })

/-! ## Theorems -/

/-- C1, refuted as stated: with server `10.0.0.5:5901`,
`remmina_plugin_spice_init` followed immediately by
`remmina_plugin_spice_close_connection` does emit the disconnect signal,
because `init` itself creates the session handle that `close_connection`
tests. -/
theorem C1_init_close_emits_disconnect :
    ¬ (signalCount "disconnect"
        (remmina_plugin_spice_close_connection
          (remmina_plugin_spice_init (sampleService 0 none 0) World.empty)).2.log = 0) := by
  decide

/-- C1, amended: for every configuration and every starting world,
`remmina_plugin_spice_init` followed immediately by
`remmina_plugin_spice_close_connection` disconnects and releases the session
that `init` created, emits the disconnect signal exactly once, sets no error,
returns FALSE and leaves the session handle absent. -/
theorem C1_init_close_emits_once (svc : RemminaPluginService) (w0 : World) :
    let r := remmina_plugin_spice_close_connection (remmina_plugin_spice_init svc w0)
    r.1 = false ∧
    r.2.error = w0.error ∧
    r.2.gpdata.session = none ∧
    r.2.log = (remmina_plugin_spice_init svc w0).log ++
      [Effect.spice_session_disconnect (some w0.next),
       Effect.g_object_unref (some w0.next),
       Effect.protocol_plugin_emit_signal "disconnect"] ∧
    signalCount "disconnect" (remmina_plugin_spice_init svc w0).log
      = signalCount "disconnect" w0.log ∧
    signalCount "disconnect" r.2.log = signalCount "disconnect" w0.log + 1 := by
  simp [remmina_plugin_spice_close_connection, remmina_plugin_spice_init, g_new0,
    spice_session_new, spice_gtk_session_get, g_signal_connect_channel_new,
    g_object_set_session, g_object_set_gtk_session, protocol_plugin_emit_signal,
    record, signalCount, List.count_append]

/-- C2: `remmina_plugin_spice_close_connection` is idempotent. After the
first call the session handle is absent; the second call in a row emits no
signal and releases nothing (its only call is the handler disconnection on the
recorded control channel, which finds nothing to remove), it leaves the plugin
data and every object as the first call left them, and the two calls together
emit the disconnect signal at most once. -/
theorem C2_close_connection_idempotent (w : World) :
    let r1 := remmina_plugin_spice_close_connection w
    let r2 := remmina_plugin_spice_close_connection r1.2
    r1.2.gpdata.session = none ∧
    r2.2 = { r1.2 with log := r1.2.log ++ handlerDisconnectCalls w } ∧
    (∀ e ∈ handlerDisconnectCalls w, isSignalOrRelease e = false) ∧
    signalCount "disconnect" r2.2.log = signalCount "disconnect" r1.2.log ∧
    signalCount "disconnect" r2.2.log ≤ signalCount "disconnect" w.log + 1 := by
  obtain ⟨gp, ss, gs, ds, geo, cn, ce, er, nx, lg⟩ := w
  obtain ⟨au, di, dc, gt, mc, se⟩ := gp
  cases mc <;> cases se <;>
    simp [remmina_plugin_spice_close_connection, g_signal_handlers_disconnect_by_func,
      protocol_plugin_emit_signal, record, signalCount, List.count_append,
      handlerDisconnectCalls, isSignalOrRelease, List.filter_filter]

/-- Formatting of the message for a closed control channel. -/
theorem printf_disconnected (h : String) :
    g_strdup_printf (gettext "Disconnected from SPICE server %s.") [h]
      = "Disconnected from SPICE server " ++ h ++ "." := by
  apply String.ext
  simp [g_strdup_printf, gettext, vprintf]

/-- Formatting of the message for a declined credential dialog. -/
theorem printf_invalid_password :
    g_strdup_printf (gettext "Invalid password.") [] = "Invalid password." := by
  decide

/-- Formatting of the message for a failed transport. -/
theorem printf_connection_failed :
    g_strdup_printf (gettext "Connection to SPICE server failed.") []
      = "Connection to SPICE server failed." := by
  decide

/-- Entry of an object table after a write to the same object. -/
theorem lookup_setObj {α : Type} (h : Handle) (f : α → α) (t : List (Handle × α)) :
    (setObj h f t).lookup h = (t.lookup h).map f := by
  induction t with
  | nil => rfl
  | cons kv rest ih =>
    obtain ⟨k, v⟩ := kv
    by_cases hk : k = h
    · subst hk
      simp [setObj, List.lookup]
    · have hne : (h == k) = false := by
        simpa using fun e => hk e.symm
      simp [setObj, hk, List.lookup, hne, ih]

/-- Teardown on a state holding session `s`: the calls, in order, and the
resulting state. -/
theorem close_connection_live (w : World) (s : Handle) (hs : w.gpdata.session = some s) :
    (remmina_plugin_spice_close_connection w).2 =
      { w with
        gpdata := { w.gpdata with session := none },
        channel_event_handlers :=
          match w.gpdata.main_channel with
          | some mc => w.channel_event_handlers.filter (fun h => !(some h == some mc))
          | none => w.channel_event_handlers,
        log := w.log ++ teardownCalls w s } := by
  obtain ⟨gp, ss, gs, ds, geo, cn, ce, er, nx, lg⟩ := w
  obtain ⟨au, di, dc, gt, mc, se⟩ := gp
  simp only at hs
  subst hs
  cases mc <;>
    simp [remmina_plugin_spice_close_connection, g_signal_handlers_disconnect_by_func,
      protocol_plugin_emit_signal, record, teardownCalls, handlerDisconnectCalls]

/-- C3, refuted as stated: in the sample Connected world (a connect signal
was already emitted for the session) the handler, on a further `OPENED`
event, is not a no-op: it emits a second connect signal. -/
theorem C3_opened_while_connected_emits_again :
    isConnected connectedWorld = true ∧
    remmina_plugin_spice_main_channel_event_cb (sampleService 0 none 0)
        SpiceChannelEvent.OPENED connectedWorld ≠ connectedWorld ∧
    signalCount "connect" connectedWorld.log = 1 ∧
    signalCount "connect"
      (remmina_plugin_spice_main_channel_event_cb (sampleService 0 none 0)
        SpiceChannelEvent.OPENED connectedWorld).log = 2 := by
  decide

/-- C3, amended: on the control channel's `OPENED` event the handler emits
exactly one connect signal and changes nothing else, in every state, while
Connecting and while already Connected alike. -/
theorem C3_opened_emits_connect (svc : RemminaPluginService) (w : World) :
    remmina_plugin_spice_main_channel_event_cb svc SpiceChannelEvent.OPENED w
      = { w with log := w.log ++ [Effect.protocol_plugin_emit_signal "connect"] } ∧
    signalCount "connect"
      (remmina_plugin_spice_main_channel_event_cb svc SpiceChannelEvent.OPENED w).log
      = signalCount "connect" w.log + 1 := by
  simp [remmina_plugin_spice_main_channel_event_cb, protocol_plugin_emit_signal, record,
    signalCount, List.count_append]

/-- C4: for every state holding a session, when the handler receives
`ERROR_AUTH` and the credential dialog answers anything but OK, the handler
opens the dialog once, reports the error `Invalid password.`, then tears down
(session disconnected and released, one disconnect signal); it starts no
handshake and writes no session property, so the stored password stays. -/
theorem C4_auth_error_declined (svc : RemminaPluginService) (w : World) (s : Handle)
    (hs : w.gpdata.session = some s)
    (hret : svc.protocol_plugin_init_authpwd
      (decide (svc.file_get_int "disablepasswordstoring" 0 = 0)) ≠ GTK_RESPONSE_OK) :
    let w1 := remmina_plugin_spice_main_channel_event_cb svc SpiceChannelEvent.ERROR_AUTH w
    let calls := [Effect.protocol_plugin_init_authpwd
                    (decide (svc.file_get_int "disablepasswordstoring" 0 = 0)),
                  Effect.protocol_plugin_set_error "Invalid password."] ++ teardownCalls w s
    w1.log = w.log ++ calls ∧
    calls.countP isPrompt = 1 ∧
    calls.countP isConnectAttempt = 0 ∧
    signalCount "disconnect" calls = 1 ∧
    w1.error = some "Invalid password." ∧
    w1.gpdata.session = none ∧
    w1.sessions = w.sessions := by
  have hclose := close_connection_live
    (protocol_plugin_set_error (gettext "Invalid password.") []
      (record (Effect.protocol_plugin_init_authpwd
        (decide (svc.file_get_int "disablepasswordstoring" 0 = 0))) w)) s
    (by simpa [protocol_plugin_set_error, record] using hs)
  simp only [remmina_plugin_spice_main_channel_event_cb, remmina_plugin_spice_ask_auth,
    if_neg hret, hclose]
  cases hmc : w.gpdata.main_channel <;>
    simp [protocol_plugin_set_error, record, printf_invalid_password, teardownCalls,
      handlerDisconnectCalls, hmc, isPrompt, isConnectAttempt, signalCount, List.countP_cons,
      List.count_cons]

/-- C4, instance: in the sample Connected world (server `10.0.0.5:5901`,
stored password `wrong`) a dialog answer of 0 leads to one prompt, the error
`Invalid password.`, teardown, and the password `wrong` still stored. -/
theorem C4_auth_error_declined_witness :
    connectedWorld.gpdata.session = some 1 ∧
    (sampleService 0 none 0).protocol_plugin_init_authpwd
      (decide ((sampleService 0 none 0).file_get_int "disablepasswordstoring" 0 = 0))
      ≠ GTK_RESPONSE_OK ∧
    (remmina_plugin_spice_main_channel_event_cb (sampleService 0 none 0)
      SpiceChannelEvent.ERROR_AUTH connectedWorld).log
      = connectedWorld.log ++
        [Effect.protocol_plugin_init_authpwd true,
         Effect.protocol_plugin_set_error "Invalid password.",
         Effect.g_signal_handlers_disconnect_by_func (some 100),
         Effect.spice_session_disconnect (some 1),
         Effect.g_object_unref (some 1),
         Effect.protocol_plugin_emit_signal "disconnect"] ∧
    (remmina_plugin_spice_main_channel_event_cb (sampleService 0 none 0)
      SpiceChannelEvent.ERROR_AUTH connectedWorld).sessions = connectedWorld.sessions :=
  ⟨by decide, by decide,
   (C4_auth_error_declined (sampleService 0 none 0) connectedWorld 1
      (by decide) (by decide)).1,
   (C4_auth_error_declined (sampleService 0 none 0) connectedWorld 1
      (by decide) (by decide)).2.2.2.2.2.2⟩

/-- C5: for every state holding a live session and whatever password that
session stored, when the handler receives `ERROR_AUTH` and the credential
dialog answers OK, the handler opens the dialog once, writes the dialog's
password over the session's stored one, and starts the handshake once on the
same session; it reports no error, releases nothing, emits no signal and
leaves the plugin data as it was. -/
theorem C5_auth_error_accepted (svc : RemminaPluginService) (w : World) (s : Handle)
    (o : SpiceSession)
    (hs : w.gpdata.session = some s)
    (ho : getObj (some s) w.sessions = some o)
    (hret : svc.protocol_plugin_init_authpwd
      (decide (svc.file_get_int "disablepasswordstoring" 0 = 0)) = GTK_RESPONSE_OK) :
    let w1 := remmina_plugin_spice_main_channel_event_cb svc SpiceChannelEvent.ERROR_AUTH w
    let calls := [Effect.protocol_plugin_init_authpwd
                    (decide (svc.file_get_int "disablepasswordstoring" 0 = 0)),
                  Effect.g_object_set (some s) ["password"],
                  Effect.spice_session_connect (some s)]
    w1.log = w.log ++ calls ∧
    calls.countP isPrompt = 1 ∧
    calls.countP isConnectAttempt = 1 ∧
    calls.countP isSetError = 0 ∧
    calls.countP isSignalOrRelease = 0 ∧
    getObj (some s) w1.sessions
      = some { o with password := svc.protocol_plugin_init_get_password } ∧
    w1.error = w.error ∧
    w1.gpdata = w.gpdata ∧
    w1.channel_event_handlers = w.channel_event_handlers := by
  simp only [getObj] at ho
  simp [remmina_plugin_spice_main_channel_event_cb, remmina_plugin_spice_ask_auth, hret,
    remmina_plugin_spice_open_connection, g_object_set_session, record, hs, getObj,
    lookup_setObj, ho, isPrompt, isConnectAttempt, isSetError, isSignalOrRelease,
    List.countP_cons]

/-- C5, instance: in the sample Connected world with stored password `wrong`,
a dialog answer OK with password `right` stores `right` and starts the
handshake again on session 1. -/
theorem C5_auth_error_accepted_witness :
    connectedWorld.gpdata.session = some 1 ∧
    (getObj (some 1) connectedWorld.sessions).map (fun o => o.password)
      = some (some "wrong") ∧
    (getObj (some 1)
      (remmina_plugin_spice_main_channel_event_cb (sampleService GTK_RESPONSE_OK (some "right") 0)
        SpiceChannelEvent.ERROR_AUTH connectedWorld).sessions).map (fun o => o.password)
      = some (some "right") ∧
    (remmina_plugin_spice_main_channel_event_cb (sampleService GTK_RESPONSE_OK (some "right") 0)
      SpiceChannelEvent.ERROR_AUTH connectedWorld).log
      = connectedWorld.log ++
        [Effect.protocol_plugin_init_authpwd true,
         Effect.g_object_set (some 1) ["password"],
         Effect.spice_session_connect (some 1)] :=
  ⟨by decide, by decide,
   congrArg (Option.map (fun o => o.password))
     (C5_auth_error_accepted (sampleService GTK_RESPONSE_OK (some "right") 0) connectedWorld 1
       { host := some "10.0.0.5", port := some "5901", password := some "wrong",
         read_only := 0, enable_audio := 1, enable_smartcard := 0 }
       (by decide) (by decide) (by decide)).2.2.2.2.2.1,
   (C5_auth_error_accepted (sampleService GTK_RESPONSE_OK (some "right") 0) connectedWorld 1
       { host := some "10.0.0.5", port := some "5901", password := some "wrong",
         read_only := 0, enable_audio := 1, enable_smartcard := 0 }
       (by decide) (by decide) (by decide)).1⟩

/-- C6: for every state holding a session, each fatal control-channel event
is handled by one error report followed by one teardown, with no handshake
started. For `CLOSED` the message is `Disconnected from SPICE server`
followed by the host that the service's parser returns for the configured
server string with default port 5900; for `ERROR_TLS`, `ERROR_LINK` and
`ERROR_CONNECT` it is `Connection to SPICE server failed.`. The error report
comes first in the log, teardown emits the disconnect signal once, and the
session handle is absent afterwards. -/
theorem C6_fatal_events (svc : RemminaPluginService) (w : World) (s : Handle)
    (hs : w.gpdata.session = some s) :
    let host := (svc.get_server_port (svc.file_get_string "server") XSPICE_DEFAULT_PORT).1
    let closedMsg := "Disconnected from SPICE server " ++ showStr host ++ "."
    let failedMsg := "Connection to SPICE server failed."
    let closed := remmina_plugin_spice_main_channel_event_cb svc SpiceChannelEvent.CLOSED w
    (closed.log = w.log ++ Effect.protocol_plugin_set_error closedMsg :: teardownCalls w s ∧
      closed.error = some closedMsg ∧ closed.gpdata.session = none) ∧
    (∀ ev, ev = SpiceChannelEvent.ERROR_TLS ∨ ev = SpiceChannelEvent.ERROR_LINK ∨
        ev = SpiceChannelEvent.ERROR_CONNECT →
      (remmina_plugin_spice_main_channel_event_cb svc ev w).log
        = w.log ++ Effect.protocol_plugin_set_error failedMsg :: teardownCalls w s ∧
      (remmina_plugin_spice_main_channel_event_cb svc ev w).error = some failedMsg ∧
      (remmina_plugin_spice_main_channel_event_cb svc ev w).gpdata.session = none) ∧
    (teardownCalls w s).countP isSetError = 0 ∧
    (teardownCalls w s).countP isConnectAttempt = 0 ∧
    signalCount "disconnect" (teardownCalls w s) = 1 := by
  have hc : ∀ fmt args,
      (remmina_plugin_spice_close_connection (protocol_plugin_set_error fmt args w)).2
        = { w with
            gpdata := { w.gpdata with session := none },
            channel_event_handlers :=
              match w.gpdata.main_channel with
              | some mc => w.channel_event_handlers.filter (fun h => !(some h == some mc))
              | none => w.channel_event_handlers,
            error := some (g_strdup_printf fmt args),
            log := w.log ++
              Effect.protocol_plugin_set_error (g_strdup_printf fmt args) :: teardownCalls w s } := by
    intro fmt args
    rw [close_connection_live (protocol_plugin_set_error fmt args w) s
      (by simpa [protocol_plugin_set_error, record] using hs)]
    cases hmc : w.gpdata.main_channel <;>
      simp [protocol_plugin_set_error, record, teardownCalls, handlerDisconnectCalls, hmc]
  refine ⟨?_, ?_, ?_⟩
  · simp only [remmina_plugin_spice_main_channel_event_cb, hc, printf_disconnected]
    simp
  · intro ev hev
    rcases hev with h | h | h <;> subst h <;>
      simp only [remmina_plugin_spice_main_channel_event_cb, hc, printf_connection_failed] <;>
      simp
  · cases hmc : w.gpdata.main_channel <;>
      simp [teardownCalls, handlerDisconnectCalls, hmc, isSetError, isConnectAttempt,
        signalCount, List.countP_cons, List.count_cons]

/-- C6, instance: in the sample Connected world with server `10.0.0.5:5901`
the `CLOSED` event reports `Disconnected from SPICE server 10.0.0.5.` and
then tears down. -/
theorem C6_fatal_events_witness :
    connectedWorld.gpdata.session = some 1 ∧
    (remmina_plugin_spice_main_channel_event_cb (sampleService 0 none 0)
      SpiceChannelEvent.CLOSED connectedWorld).log
      = connectedWorld.log ++
        [Effect.protocol_plugin_set_error "Disconnected from SPICE server 10.0.0.5.",
         Effect.g_signal_handlers_disconnect_by_func (some 100),
         Effect.spice_session_disconnect (some 1),
         Effect.g_object_unref (some 1),
         Effect.protocol_plugin_emit_signal "disconnect"] :=
  ⟨by decide,
   (C6_fatal_events (sampleService 0 none 0) connectedWorld 1 (by decide)).1.1.trans
     (by decide)⟩

/-- C7, refuted as stated: teardown of the sample Connected world (session
held, handler connected to control channel 100) leaves the control channel,
the display channel, the display surface and the audio endpoint recorded in
the plugin data; only the session handle is cleared. -/
theorem C7_teardown_keeps_registry :
    connectedWorld.gpdata.session = some 1 ∧
    connectedWorld.gpdata.main_channel = some 100 ∧
    100 ∈ connectedWorld.channel_event_handlers ∧
    (remmina_plugin_spice_close_connection connectedWorld).2.gpdata
      = { audio := some 50, display := some 3, display_channel := some 101,
          gtk_session := some 2, main_channel := some 100, session := none } := by
  decide

/-- C7, amended: teardown on a state holding session `s` and naming control
channel `mc` performs, in this order: disconnect the channel-event handler
from `mc`, disconnect the session, release it, emit the disconnect signal.
Afterwards the session handle is absent and the handler is connected to `mc`
no more; every other entry of the plugin data is left as it was. -/
theorem C7_teardown_order (w : World) (s mc : Handle)
    (hs : w.gpdata.session = some s) (hmc : w.gpdata.main_channel = some mc) :
    let w1 := (remmina_plugin_spice_close_connection w).2
    w1.log = w.log ++
      [Effect.g_signal_handlers_disconnect_by_func (some mc),
       Effect.spice_session_disconnect (some s),
       Effect.g_object_unref (some s),
       Effect.protocol_plugin_emit_signal "disconnect"] ∧
    mc ∉ w1.channel_event_handlers ∧
    w1.gpdata.session = none ∧
    w1.gpdata = { w.gpdata with session := none } := by
  rw [close_connection_live w s hs]
  simp [teardownCalls, handlerDisconnectCalls, hmc, List.mem_filter]

/-- C7, instance: the sample Connected world. -/
theorem C7_teardown_order_witness :
    connectedWorld.gpdata.session = some 1 ∧
    connectedWorld.gpdata.main_channel = some 100 ∧
    (remmina_plugin_spice_close_connection connectedWorld).2.log
      = connectedWorld.log ++
        [Effect.g_signal_handlers_disconnect_by_func (some 100),
         Effect.spice_session_disconnect (some 1),
         Effect.g_object_unref (some 1),
         Effect.protocol_plugin_emit_signal "disconnect"] ∧
    100 ∉ (remmina_plugin_spice_close_connection connectedWorld).2.channel_event_handlers :=
  ⟨by decide, by decide,
   (C7_teardown_order connectedWorld 1 100 (by decide) (by decide)).1,
   (C7_teardown_order connectedWorld 1 100 (by decide) (by decide)).2.1⟩

/-- C8: for every state, a channel-new event whose channel is neither a main
nor a display channel changes the world only when the channel is a playback
channel and the `enableaudio` setting is non-zero; then, and only then, the
audio endpoint of the session is fetched and recorded. In every other case
the world, log included, is returned as it was. -/
theorem C8_other_channels_ignored (svc : RemminaPluginService) (lib : SpiceClient)
    (channel : SpiceChannel) (w : World)
    (hm : channel.type ≠ ChannelType.main) (hd : channel.type ≠ ChannelType.display) :
    remmina_plugin_spice_channel_new_cb svc lib channel w =
      if channel.type = ChannelType.playback ∧ svc.file_get_int "enableaudio" 0 ≠ 0 then
        { w with
          gpdata := { w.gpdata with audio := lib.spice_audio_get w.gpdata.session },
          log := w.log ++ [Effect.spice_audio_get w.gpdata.session] }
      else w := by
  by_cases hp : channel.type = ChannelType.playback <;>
    by_cases ha : svc.file_get_int "enableaudio" 0 = 0 <;>
    simp [remmina_plugin_spice_channel_new_cb, SPICE_IS_MAIN_CHANNEL, SPICE_IS_DISPLAY_CHANNEL,
      SPICE_IS_PLAYBACK_CHANNEL, hm, hd, hp, ha, record]

/-- C8, instance: in the sample Connecting world an inputs channel changes
nothing, and a playback channel with `enableaudio` set records the audio
endpoint 50. -/
theorem C8_other_channels_ignored_witness :
    inputsChannel.type ≠ ChannelType.main ∧ inputsChannel.type ≠ ChannelType.display ∧
    remmina_plugin_spice_channel_new_cb (sampleService 0 none 0) sampleClient
      inputsChannel connectingWorld = connectingWorld ∧
    (remmina_plugin_spice_channel_new_cb (sampleService 0 none 0) sampleClient
      playbackChannel connectingWorld).gpdata.audio = some 50 :=
  ⟨by decide, by decide,
   (C8_other_channels_ignored (sampleService 0 none 0) sampleClient inputsChannel
      connectingWorld (by decide) (by decide)).trans (by decide),
   (congrArg (fun x => x.gpdata.audio)
      (C8_other_channels_ignored (sampleService 0 none 0) sampleClient playbackChannel
        connectingWorld (by decide) (by decide))).trans (by decide)⟩

/-- C9: for every state with a display surface `d` and a display channel `c`,
`remmina_plugin_spice_update_scale` returns, writes the current `scale`
setting to the surface's scaling property and then requests a size: natural
size (-1, -1) when scaling is on, the channel's width and height as they are
at that call when scaling is off. Nothing else changes. In particular, when
the channel geometry changes after this call and scaling is then switched off,
the next call requests the new geometry. -/
theorem C9_update_scale (svc : RemminaPluginService) (w : World) (d c : Handle)
    (o : SpiceDisplay) (width height : Int)
    (hd : w.gpdata.display = some d) (hc : w.gpdata.display_channel = some c)
    (ho : getObj (some d) w.displays = some o)
    (hg : getObj (some c) w.geometry = some (width, height)) :
    let scale := svc.file_get_int "scale" 0
    let size : Int × Int := if scale ≠ 0 then (-1, -1) else (width, height)
    ∃ w1, remmina_plugin_spice_update_scale svc w = some w1 ∧
      getObj (some d) w1.displays = some { o with scaling := scale, size_request := size } ∧
      w1.log = w.log ++
        [Effect.g_object_set (some d) ["scaling"],
         Effect.gtk_widget_set_size_request (some d) size.1 size.2] ∧
      w1.gpdata = w.gpdata ∧
      w1.geometry = w.geometry ∧
      ∀ (svc2 : RemminaPluginService) (geometry2 : List (Handle × (Int × Int)))
        (width2 height2 : Int),
        svc2.file_get_int "scale" 0 = 0 →
        getObj (some c) geometry2 = some (width2, height2) →
        ∃ w2, remmina_plugin_spice_update_scale svc2 { w1 with geometry := geometry2 } = some w2 ∧
          getObj (some d) w2.displays
            = some { o with scaling := 0, size_request := (width2, height2) } := by
  simp only [getObj] at ho hg
  by_cases hsc : svc.file_get_int "scale" 0 = 0
  · refine ⟨_, by simp [remmina_plugin_spice_update_scale, hsc, hd, hc,
      g_object_get_width_height, g_object_set_display, record, getObj, hg]; rfl, ?_⟩
    simp [gtk_widget_set_size_request, g_object_set_display, record, getObj, lookup_setObj,
      ho, hsc, hd, hc]
    intro svc2 geometry2 width2 height2 h0 hg2
    simp [remmina_plugin_spice_update_scale, h0, hd, hc, g_object_get_width_height,
      gtk_widget_set_size_request, g_object_set_display, record, getObj, hg2, lookup_setObj, ho]
  · refine ⟨_, by simp [remmina_plugin_spice_update_scale, hsc]; rfl, ?_⟩
    simp [gtk_widget_set_size_request, g_object_set_display, record, getObj, lookup_setObj,
      ho, hsc, hd, hc]
    intro svc2 geometry2 width2 height2 h0 hg2
    simp [remmina_plugin_spice_update_scale, h0, hd, hc, g_object_get_width_height,
      gtk_widget_set_size_request, g_object_set_display, record, getObj, hg2, lookup_setObj, ho]

/-- C9, instance: in the sample Connecting world (surface 3, display channel
101 of 1024 by 768) scaling is switched on, giving the natural size; the
channel then changes to 800 by 600 and scaling is switched off, giving a size
request of 800 by 600. -/
theorem C9_update_scale_witness :
    connectingWorld.gpdata.display = some 3 ∧
    connectingWorld.gpdata.display_channel = some 101 ∧
    getObj (some 101) connectingWorld.geometry = some (1024, 768) ∧
    ∃ w1, remmina_plugin_spice_update_scale (sampleService 0 none 1) connectingWorld = some w1 ∧
      (getObj (some 3) w1.displays).map (fun x => x.size_request) = some (-1, -1) ∧
      ∃ w2, remmina_plugin_spice_update_scale (sampleService 0 none 0)
          { w1 with geometry := [(101, (800, 600))] } = some w2 ∧
        (getObj (some 3) w2.displays).map (fun x => x.size_request) = some (800, 600) := by
  obtain ⟨w1, h1, h2, _, _, _, h6⟩ :=
    C9_update_scale (sampleService 0 none 1) connectingWorld 3 101
      { session := some 1, channel_id := 0, scaling := 0, resize_guest := 0,
        size_request := (-1, -1) }
      1024 768 (by decide) (by decide) (by decide) (by decide)
  obtain ⟨w2, h7, h8⟩ := h6 (sampleService 0 none 0) [(101, (800, 600))] 800 600
    (by decide) (by decide)
  exact ⟨by decide, by decide, by decide, w1, h1, by rw [h2]; rfl, w2, h7, by rw [h8]; rfl⟩

/-- One channel-new event: what it does to the recorded control channel, the
recorded display channel, the handler connections and the number of surfaces
handed to the protocol widget. -/
theorem channel_new_cb_step (svc : RemminaPluginService) (lib : SpiceClient)
    (ch : SpiceChannel) (w : World) :
    let w1 := remmina_plugin_spice_channel_new_cb svc lib ch w
    w1.gpdata.main_channel
      = (if ch.type = ChannelType.main then some ch.ptr else w.gpdata.main_channel) ∧
    w1.gpdata.display_channel
      = (if ch.type = ChannelType.display then some ch.ptr else w.gpdata.display_channel) ∧
    w1.channel_event_handlers
      = w.channel_event_handlers ++ (if ch.type = ChannelType.main then [ch.ptr] else []) ∧
    w1.log.countP isContainerAdd
      = w.log.countP isContainerAdd + (if ch.type = ChannelType.display then 1 else 0) := by
  obtain ⟨p, t, i⟩ := ch
  by_cases ha : svc.file_get_int "enableaudio" 0 = 0 <;> cases t <;>
    simp [remmina_plugin_spice_channel_new_cb, SPICE_IS_MAIN_CHANNEL, SPICE_IS_DISPLAY_CHANNEL,
      SPICE_IS_PLAYBACK_CHANNEL, ha, record, g_signal_connect_channel_event, spice_display_new,
      g_object_set_display, isContainerAdd, List.countP_append, List.countP_cons]

/-- A sequence of channel-new events, from any state. -/
theorem deliverChannels_spec (svc : RemminaPluginService) (lib : SpiceClient)
    (chs : List SpiceChannel) (w : World) :
    (deliverChannels svc lib chs w).gpdata.main_channel
      = lastOfType ChannelType.main chs w.gpdata.main_channel ∧
    (deliverChannels svc lib chs w).gpdata.display_channel
      = lastOfType ChannelType.display chs w.gpdata.display_channel ∧
    (deliverChannels svc lib chs w).channel_event_handlers
      = w.channel_event_handlers ++ ofType ChannelType.main chs ∧
    (deliverChannels svc lib chs w).log.countP isContainerAdd
      = w.log.countP isContainerAdd + (ofType ChannelType.display chs).length := by
  induction chs generalizing w with
  | nil => simp [deliverChannels, lastOfType, ofType]
  | cons ch rest ih =>
    have hstep := channel_new_cb_step svc lib ch w
    have hrest := ih (remmina_plugin_spice_channel_new_cb svc lib ch w)
    simp only [deliverChannels, List.foldl_cons] at hrest ⊢
    obtain ⟨s1, s2, s3, s4⟩ := hstep
    obtain ⟨r1, r2, r3, r4⟩ := hrest
    rw [r1, r2, r3, r4, s1, s2, s3, s4]
    refine ⟨?_, ?_, ?_, ?_⟩
    · simp [lastOfType]
    · simp [lastOfType]
    · by_cases h : ch.type = ChannelType.main <;> simp [ofType, List.filter_cons, h]
    · by_cases h : ch.type = ChannelType.display <;>
        simp [ofType, List.filter_cons, h, Nat.add_assoc, Nat.add_comm]

/-- One channel-new event and the display surface: the session handle is
kept; a display channel, and only a display channel, takes the next free
handle for a new surface, creates it for the session and the channel's id,
configures it, records it in the plugin data and passes it to
`gtk_container_add`. -/
theorem channel_new_cb_surface_step (svc : RemminaPluginService) (lib : SpiceClient)
    (ch : SpiceChannel) (w : World) :
    let w1 := remmina_plugin_spice_channel_new_cb svc lib ch w
    w1.gpdata.session = w.gpdata.session ∧
    w1.next = w.next + (if ch.type = ChannelType.display then 1 else 0) ∧
    w1.gpdata.display
      = (if ch.type = ChannelType.display then some w.next else w.gpdata.display) ∧
    surfacesCreated w1.log = surfacesCreated w.log ++
      (if ch.type = ChannelType.display then [(w.gpdata.session, ch.channel_id, w.next)]
       else []) ∧
    surfacesAdded w1.log = surfacesAdded w.log ++
      (if ch.type = ChannelType.display then [some w.next] else []) ∧
    w1.displays =
      (if ch.type = ChannelType.display then [surfaceFor svc w.gpdata.session (w.next, ch)]
       else []) ++ w.displays := by
  obtain ⟨p, t, i⟩ := ch
  by_cases ha : svc.file_get_int "enableaudio" 0 = 0 <;> cases t <;>
    simp [remmina_plugin_spice_channel_new_cb, SPICE_IS_MAIN_CHANNEL, SPICE_IS_DISPLAY_CHANNEL,
      SPICE_IS_PLAYBACK_CHANNEL, ha, record, g_signal_connect_channel_event, spice_display_new,
      g_object_set_display, surfacesCreated, surfacesAdded, surfaceFor, setObj,
      List.filterMap_append]

/-- A sequence of channel-new events and the display surfaces, from any
state: the surfaces take the handles from the next free one upwards, one per
display channel in order. -/
theorem deliverChannels_surfaces (svc : RemminaPluginService) (lib : SpiceClient)
    (chs : List SpiceChannel) (w : World) :
    (deliverChannels svc lib chs w).gpdata.session = w.gpdata.session ∧
    (deliverChannels svc lib chs w).next = w.next + (displayEvents chs).length ∧
    (deliverChannels svc lib chs w).gpdata.display
      = (if (displayEvents chs).length = 0 then w.gpdata.display
         else some (w.next + (displayEvents chs).length - 1)) ∧
    surfacesCreated (deliverChannels svc lib chs w).log = surfacesCreated w.log ++
      (List.enumFrom w.next (displayEvents chs)).map
        (fun p => (w.gpdata.session, p.2.channel_id, p.1)) ∧
    surfacesAdded (deliverChannels svc lib chs w).log = surfacesAdded w.log ++
      (List.enumFrom w.next (displayEvents chs)).map (fun p => some p.1) ∧
    (deliverChannels svc lib chs w).displays =
      ((List.enumFrom w.next (displayEvents chs)).map (surfaceFor svc w.gpdata.session)).reverse
        ++ w.displays := by
  induction chs generalizing w with
  | nil => simp [deliverChannels, displayEvents]
  | cons ch rest ih =>
    have hstep := channel_new_cb_surface_step svc lib ch w
    have hrest := ih (remmina_plugin_spice_channel_new_cb svc lib ch w)
    simp only [deliverChannels, List.foldl_cons] at hrest ⊢
    obtain ⟨s1, s2, s3, s4, s5, s6⟩ := hstep
    obtain ⟨r1, r2, r3, r4, r5, r6⟩ := hrest
    rw [r1, r2, r3, r4, r5, r6, s1, s2, s3, s4, s5, s6]
    by_cases h : ch.type = ChannelType.display
    · simp only [displayEvents, List.filter_cons, h, decide_True, if_true, List.length_cons,
        List.enumFrom_cons, List.map_cons, List.reverse_cons, List.append_assoc,
        List.singleton_append, List.cons_append, List.nil_append]
      generalize (List.filter (fun ch => decide (ch.type = ChannelType.display)) rest).length = n
      refine ⟨trivial, ?_, ?_, trivial, trivial, trivial⟩
      · rw [Nat.add_assoc, Nat.add_comm 1 n]
      · cases n with
        | zero => simp
        | succ m =>
          simp only [Nat.add_one_ne_zero, if_false]
          rw [Nat.add_assoc, Nat.add_comm 1 (m + 1)]
    · simp [displayEvents, List.filter_cons, h]

/-- C10, refuted as stated: after `init`, two channel-new events with two
different main channels leave the handler connected to both of them, so two
channels carry the control-channel handler at once. Two display channels
likewise give two surfaces, 3 and 4, each passed to `gtk_container_add` on the
protocol widget. -/
theorem C10_two_main_channels_registered :
    registeredChannels
      (deliverChannels (sampleService 0 none 0) sampleClient [mainChannel, mainChannel2]
        (remmina_plugin_spice_init (sampleService 0 none 0) World.empty)) = [100, 110] ∧
    ¬ ((registeredChannels
      (deliverChannels (sampleService 0 none 0) sampleClient [mainChannel, mainChannel2]
        (remmina_plugin_spice_init (sampleService 0 none 0) World.empty))).length ≤ 1) ∧
    surfacesAdded
      (deliverChannels (sampleService 0 none 0) sampleClient [displayChannel, displayChannel2]
        (remmina_plugin_spice_init (sampleService 0 none 0) World.empty)).log
      = [some 3, some 4] := by
  decide

/-- C10, amended: over every sequence of channel-new events delivered after
`init`, the plugin data names at most one control channel, one display
channel and one display surface, namely the most recent of each. Each main
channel-new event connects the handler to its channel and keeps the earlier
connections, so the handler connections are exactly the main channels of the
sequence in order. Each display channel-new event creates a new surface with
`spice_display_new` for the session and that channel's id, configures it,
records it in the plugin data and passes that same surface to
`gtk_container_add`; the surfaces created, and the surfaces passed to the
protocol widget, are one per display channel of the sequence, in order, and
all of them stay in the object table. -/
theorem C10_channel_registry (svc : RemminaPluginService) (lib : SpiceClient)
    (chs : List SpiceChannel) (w0 : World) :
    let w := deliverChannels svc lib chs (remmina_plugin_spice_init svc w0)
    let session : Option Handle := some w0.next
    let first : Handle := w0.next + 2
    w.gpdata.main_channel = lastOfType ChannelType.main chs none ∧
    w.gpdata.display_channel = lastOfType ChannelType.display chs none ∧
    w.channel_event_handlers = w0.channel_event_handlers ++ ofType ChannelType.main chs ∧
    w.log.countP isContainerAdd
      = w0.log.countP isContainerAdd + (ofType ChannelType.display chs).length ∧
    w.gpdata.session = session ∧
    w.gpdata.display
      = (if (displayEvents chs).length = 0 then none
         else some (first + (displayEvents chs).length - 1)) ∧
    surfacesCreated w.log = surfacesCreated w0.log ++
      (List.enumFrom first (displayEvents chs)).map
        (fun p => (session, p.2.channel_id, p.1)) ∧
    surfacesAdded w.log = surfacesAdded w0.log ++
      (List.enumFrom first (displayEvents chs)).map (fun p => some p.1) ∧
    w.displays =
      ((List.enumFrom first (displayEvents chs)).map (surfaceFor svc session)).reverse
        ++ w0.displays := by
  have h := deliverChannels_spec svc lib chs (remmina_plugin_spice_init svc w0)
  have g := deliverChannels_surfaces svc lib chs (remmina_plugin_spice_init svc w0)
  obtain ⟨h1, h2, h3, h4⟩ := h
  obtain ⟨g1, g2, g3, g4, g5, g6⟩ := g
  have hinit : (remmina_plugin_spice_init svc w0).gpdata.session = some w0.next ∧
      (remmina_plugin_spice_init svc w0).next = w0.next + 2 ∧
      (remmina_plugin_spice_init svc w0).gpdata.display = none ∧
      surfacesCreated (remmina_plugin_spice_init svc w0).log = surfacesCreated w0.log ∧
      surfacesAdded (remmina_plugin_spice_init svc w0).log = surfacesAdded w0.log ∧
      (remmina_plugin_spice_init svc w0).displays = w0.displays := by
    simp [remmina_plugin_spice_init, g_new0, spice_session_new, spice_gtk_session_get,
      g_signal_connect_channel_new, g_object_set_session, g_object_set_gtk_session, record,
      surfacesCreated, surfacesAdded, List.filterMap_append]
  obtain ⟨i1, i2, i3, i4, i5, i6⟩ := hinit
  simp only [i1, i2, i3, i4, i5, i6] at g3 g4 g5 g6
  refine ⟨?_, ?_, ?_, ?_, ?_, g3, g4, g5, g6⟩
  · rw [h1]; rfl
  · rw [h2]; rfl
  · rw [h3]; rfl
  · rw [h4]
    simp [remmina_plugin_spice_init, g_new0, spice_session_new, spice_gtk_session_get,
      g_signal_connect_channel_new, g_object_set_session, g_object_set_gtk_session, record,
      isContainerAdd, List.countP_append, List.countP_cons]
  · rw [g1, i1]

/-- Dispatch of guest-resize, scaling and control-alt-delete in any state
whose plugin data names no display surface and no display channel: the first
two pass the NULL surface to the property write (and to the size request, or
read the geometry of the NULL channel), the third stops at its NULL check. -/
theorem call_feature_absent_display (svc : RemminaPluginService) (w : World)
    (hd : w.gpdata.display = none) (hc : w.gpdata.display_channel = none) :
    remmina_plugin_spice_call_feature svc REMMINA_PLUGIN_SPICE_FEATURE_PREF_RESIZEGUEST w
      = some { w with log := w.log ++ [Effect.g_object_set none ["resize-guest"]] } ∧
    remmina_plugin_spice_call_feature svc REMMINA_PLUGIN_SPICE_FEATURE_SCALE w
      = (if svc.file_get_int "scale" 0 ≠ 0 then
          some { w with log := w.log ++
            [Effect.g_object_set none ["scaling"],
             Effect.gtk_widget_set_size_request none (-1) (-1)] }
        else none) ∧
    remmina_plugin_spice_call_feature svc REMMINA_PLUGIN_SPICE_FEATURE_TOOL_SENDCTRLALTDEL w
      = some w := by
  refine ⟨?_, ?_, ?_⟩
  · simp [remmina_plugin_spice_call_feature, REMMINA_PLUGIN_SPICE_FEATURE_PREF_RESIZEGUEST,
      REMMINA_PLUGIN_SPICE_FEATURE_PREF_VIEWONLY, g_object_set_display, record, hd]
  · by_cases hs : svc.file_get_int "scale" 0 = 0 <;>
      simp [remmina_plugin_spice_call_feature, REMMINA_PLUGIN_SPICE_FEATURE_PREF_RESIZEGUEST,
        REMMINA_PLUGIN_SPICE_FEATURE_PREF_VIEWONLY, REMMINA_PLUGIN_SPICE_FEATURE_SCALE,
        REMMINA_PLUGIN_SPICE_FEATURE_PREF_DISABLECLIPBOARD, remmina_plugin_spice_update_scale,
        g_object_get_width_height, getObj, gtk_widget_set_size_request, g_object_set_display,
        record, hd, hc, hs]
  · simp [remmina_plugin_spice_call_feature, REMMINA_PLUGIN_SPICE_FEATURE_PREF_RESIZEGUEST,
      REMMINA_PLUGIN_SPICE_FEATURE_PREF_VIEWONLY, REMMINA_PLUGIN_SPICE_FEATURE_SCALE,
      REMMINA_PLUGIN_SPICE_FEATURE_PREF_DISABLECLIPBOARD,
      REMMINA_PLUGIN_SPICE_FEATURE_TOOL_SENDCTRLALTDEL, remmina_plugin_spice_send_ctrlaltdel,
      remmina_plugin_spice_keystroke, hd]

/-- C11, the code at the failing input: in the sample world right after
`init` (no display surface, no display channel) `remmina_plugin_spice_call_feature`
with the guest-resize id writes the `resize-guest` property through the NULL
surface pointer; with the scaling id and scaling on it writes `scaling` and
requests a size through the NULL surface pointer; with the scaling id and
scaling off it reads width and height of the NULL display channel, which
leaves them without a value. Only the control-alt-delete id, whose path tests
`gpdata->display` first, touches nothing. -/
theorem C11_call_feature_touches_absent_display :
    initWorld.gpdata.display = none ∧
    initWorld.gpdata.display_channel = none ∧
    remmina_plugin_spice_call_feature (sampleService 0 none 0)
        REMMINA_PLUGIN_SPICE_FEATURE_PREF_RESIZEGUEST initWorld
      = some { initWorld with
          log := initWorld.log ++ [Effect.g_object_set none ["resize-guest"]] } ∧
    remmina_plugin_spice_call_feature (sampleService 0 none 1)
        REMMINA_PLUGIN_SPICE_FEATURE_SCALE initWorld
      = some { initWorld with
          log := initWorld.log ++
            [Effect.g_object_set none ["scaling"],
             Effect.gtk_widget_set_size_request none (-1) (-1)] } ∧
    remmina_plugin_spice_call_feature (sampleService 0 none 0)
        REMMINA_PLUGIN_SPICE_FEATURE_SCALE initWorld = none ∧
    remmina_plugin_spice_call_feature (sampleService 0 none 0)
        REMMINA_PLUGIN_SPICE_FEATURE_TOOL_SENDCTRLALTDEL initWorld = some initWorld := by
  decide

end Spice
